import Mathlib

/-!
Verification of the `time-elapsed` crate (src/lib.rs): a shallow embedding
of its duration formatter and of the `TimeElapsed` timer handle.

Nanosecond counts (`u128` in the source) are modelled as `Nat`; integer
division `/` is `Nat.div`, matching Rust's truncating unsigned division.
Monotonic clock reads (`Instant::now()`) are modelled as explicit `Nat`
arguments to each operation; `Instant::elapsed` saturates at zero, which
`Nat` subtraction also does. Printing is modelled by returning the emitted
line as a `String`.
-/

/-- Embeds `get_unit_of_measurement` (src/lib.rs, lines 73-87). -/
def get_unit_of_measurement (nanos : Nat) : String :=
  match nanos / 4000000 with
  | 0 => "μs"
  | _ =>
    match nanos / 15000000000 with
    | 0 => "ms"
    | _ =>
      match nanos / 300000000000 with
      | 0 => "s"
      | _ =>
        match nanos / 540000000000 with
        | 0 => "min"
        | _ => "hrs"

/-- Embeds `get_units_of_measurement` (src/lib.rs, lines 89-98); the
`[&'static str; 2]` array is a pair. -/
def get_units_of_measurement (nanos : Nat) : String × String :=
  match get_unit_of_measurement nanos with
  | "μs" => ("μs", "ns")
  | "ms" => ("ms", "μs")
  | "s" => ("s", "ms")
  | "min" => ("min", "s")
  | "hrs" => ("hrs", "min")
  | _ => ("ns", "ns")

/-- Embeds `nanos_to_unit_of_msr` (src/lib.rs, lines 100-109). -/
def nanos_to_unit_of_msr (nanos : Nat) (unit_of_msr : String) : Nat :=
  match unit_of_msr with
  | "μs" => nanos / 1000
  | "ms" => nanos / 1000000
  | "s" => nanos / 1000000000
  | "min" => nanos / 60000000000
  | "hrs" => nanos / 3600000000000
  | _ => nanos

/-- Embeds `nanos_to_units_of_msr` (src/lib.rs, lines 111-120). -/
def nanos_to_units_of_msr (nanos : Nat) (unit_of_msr : String) : Nat × Nat :=
  match unit_of_msr with
  | "μs" => (nanos / 1000, nanos)
  | "ms" => (nanos / 1000000, nanos / 1000)
  | "s" => (nanos / 1000000000, nanos / 1000000)
  | "min" => (nanos / 60000000000, nanos / 1000000000)
  | "hrs" => (nanos / 3600000000000, nanos / 60000000000)
  | _ => (nanos, nanos)

/-- Spec-side unit cascade, transcribed from the spec's words: a fixed
cascade of independent integer divisions. Used to compare with the
source's `get_unit_of_measurement`. -/
def unitCascadeSpec (nanos : Nat) : String :=
  if nanos / 4000000 = 0 then "μs"
  else if nanos / 15000000000 = 0 then "ms"
  else if nanos / 300000000000 = 0 then "s"
  else if nanos / 540000000000 = 0 then "min"
  else "hrs"

/-- Spec-side value conversion, transcribed from the spec's words: divide
by the unit's fixed nanosecond factor, identity on unrecognized labels. -/
def nanosToUnitSpec (nanos : Nat) (u : String) : Nat :=
  if u = "μs" then nanos / 1000
  else if u = "ms" then nanos / 1000000
  else if u = "s" then nanos / 1000000000
  else if u = "min" then nanos / 60000000000
  else if u = "hrs" then nanos / 3600000000000
  else nanos

/-- Spec-side dual-unit pairing, transcribed from the spec's words: the
single unit chosen for `nanos` is mapped to an ordered coarse/fine pair,
with a fallback pair when none matches. -/
def dualUnitsSpec (nanos : Nat) : String × String :=
  if get_unit_of_measurement nanos = "μs" then ("μs", "ns")
  else if get_unit_of_measurement nanos = "ms" then ("ms", "μs")
  else if get_unit_of_measurement nanos = "s" then ("s", "ms")
  else if get_unit_of_measurement nanos = "min" then ("min", "s")
  else if get_unit_of_measurement nanos = "hrs" then ("hrs", "min")
  else ("ns", "ns")

/-- The single-unit selector only ever returns one of the five labels. -/
theorem get_unit_of_measurement_cases (n : Nat) :
    get_unit_of_measurement n = "μs" ∨ get_unit_of_measurement n = "ms" ∨
    get_unit_of_measurement n = "s" ∨ get_unit_of_measurement n = "min" ∨
    get_unit_of_measurement n = "hrs" := by
  unfold get_unit_of_measurement
  repeat' split
  all_goals simp

/-- C1: for every nonnegative nanosecond count `n`, the single display
unit is chosen by the exact fixed cascade of independent integer
divisions (4_000_000 for "μs", 15_000_000_000 for "ms", 300_000_000_000
for "s", 540_000_000_000 for "min", else "hrs"); in particular the unit
for 0 and 3_999_999 is "μs" and the unit for 4_000_000 is "ms". -/
theorem c1_unit_selection_cascade :
    (∀ n : Nat, get_unit_of_measurement n = unitCascadeSpec n) ∧
    get_unit_of_measurement 0 = "μs" ∧
    get_unit_of_measurement 3999999 = "μs" ∧
    get_unit_of_measurement 4000000 = "ms" := by
  refine ⟨?_, by decide, by decide, by decide⟩
  intro n
  unfold get_unit_of_measurement unitCascadeSpec
  repeat' split
  all_goals simp_all

/-- C2: converting `n` to a unit label divides `n` (truncating) by the
unit's fixed nanosecond factor, with identity on unrecognized labels; in
particular converting 1_500 to "μs" yields 1. -/
theorem c2_value_conversion :
    (∀ (n : Nat) (u : String), nanos_to_unit_of_msr n u = nanosToUnitSpec n u) ∧
    nanos_to_unit_of_msr 1500 "μs" = 1 := by
  refine ⟨?_, by decide⟩
  intro n u
  unfold nanos_to_unit_of_msr nanosToUnitSpec
  repeat' split
  all_goals simp_all

/-- C3: the dual-unit selection maps the single unit chosen for `n` to
the ordered coarse/fine pair, with fallback ("ns", "ns") when none
matches; e.g. in the "ms" range the pair is ("ms", "μs"). -/
theorem c3_dual_unit_pairing :
    (∀ n : Nat, get_units_of_measurement n = dualUnitsSpec n) ∧
    get_units_of_measurement 5000000 = ("ms", "μs") ∧
    get_units_of_measurement 600000000000 = ("hrs", "min") := by
  refine ⟨?_, by decide, by decide⟩
  intro n
  unfold get_units_of_measurement dualUnitsSpec
  repeat' split
  all_goals simp_all

set_option maxRecDepth 4096 in
/-- C4: the dual-value conversion applied to the coarse unit chosen for
`n` equals the pair of single-value conversions of `n` to the coarse and
the fine unit of the dual-unit pairing: it is the composition of the
pairing table with the single-value conversion. -/
theorem c4_dual_value_refines_single :
    ∀ n : Nat,
      nanos_to_units_of_msr n (get_units_of_measurement n).1 =
        (nanos_to_unit_of_msr n (get_units_of_measurement n).1,
         nanos_to_unit_of_msr n (get_units_of_measurement n).2) := by
  intro n
  rcases get_unit_of_measurement_cases n with h | h | h | h | h <;>
    simp [get_units_of_measurement, nanos_to_units_of_msr, nanos_to_unit_of_msr, h]

set_option maxRecDepth 4096 in
/-- C10: the first component of the dual-unit pair for `n` is exactly the
single unit selected for `n`, and the pair is always one of the five
listed pairs: the ("ns", "ns") fallback branch is unreachable. -/
theorem c10_fallback_unreachable :
    ∀ n : Nat,
      (get_units_of_measurement n).1 = get_unit_of_measurement n ∧
      (get_units_of_measurement n = ("μs", "ns") ∨
       get_units_of_measurement n = ("ms", "μs") ∨
       get_units_of_measurement n = ("s", "ms") ∨
       get_units_of_measurement n = ("min", "s") ∨
       get_units_of_measurement n = ("hrs", "min")) := by
  intro n
  rcases get_unit_of_measurement_cases n with h | h | h | h | h <;>
    simp [get_units_of_measurement, h]

/-- Embeds the `TimeElapsed` struct (src/lib.rs, lines 133-138); the two
`Instant` fields are modelled as `Nat` nanosecond clock readings. -/
structure TimeElapsed where
  name : String
  start_timestamp : Nat
  last_timestamp : Nat
deriving Repr, DecidableEq

/-- Embeds `TimeElapsed::new` (src/lib.rs, lines 142-149). The source
calls `Instant::now()` twice, once for `start_timestamp` and once for
`last_timestamp`; the two reads are the explicit arguments `now1` and
`now2`. Returns the constructed handle and the printed line. -/
def TimeElapsed.new (name : String) (now1 now2 : Nat) : TimeElapsed × String :=
  (⟨name, now1, now2⟩, "running " ++ name ++ "...")

/-- Embeds `TimeElapsed::print_message` (src/lib.rs, lines 151-159):
formats and prints, leaving the handle unchanged. Returns the handle and
the printed line (ANSI escapes included). -/
def TimeElapsed.print_message (self : TimeElapsed) (msg : String) (nanos : Nat) :
    TimeElapsed × String :=
  let unit := get_unit_of_measurement nanos
  let time := nanos_to_unit_of_msr nanos unit
  (self,
    "(\x1b[32m\x1b[1m" ++ self.name ++ "\x1b[0m) \x1b[1m" ++ msg ++
      " \x1b[0m-> \x1b[35m\x1b[1m" ++ toString time ++ " " ++ unit ++ " \x1b[0m")

/-- Embeds `TimeElapsed::log` (src/lib.rs, lines 198-202):
`self.last_timestamp.elapsed().as_nanos()` is `now - last_timestamp`
(saturating at zero, as `Instant::elapsed` does). -/
def TimeElapsed.log (self : TimeElapsed) (msg : String) (now : Nat) :
    TimeElapsed × String :=
  let nanos := now - self.last_timestamp
  self.print_message msg nanos

/-- Embeds `TimeElapsed::log_overall` (src/lib.rs, lines 224-228):
delta is `now - start_timestamp`. -/
def TimeElapsed.log_overall (self : TimeElapsed) (msg : String) (now : Nat) :
    TimeElapsed × String :=
  let nanos := now - self.start_timestamp
  self.print_message msg nanos

/-- Embeds `TimeElapsed::timestamp` (src/lib.rs, lines 248-251): resets
`last_timestamp` to now and returns the new timestamp. -/
def TimeElapsed.timestamp (self : TimeElapsed) (now : Nat) : TimeElapsed × Nat :=
  ({ self with last_timestamp := now }, now)

/-- Embeds `TimeElapsed::end` (src/lib.rs, lines 174-182): takes the
handle by value (consuming it) and returns only the printed line. Named
`endBench` because `end` is a Lean keyword. -/
def TimeElapsed.endBench (self : TimeElapsed) (now : Nat) : String :=
  let nanos := now - self.start_timestamp
  let units := get_units_of_measurement nanos
  let times := nanos_to_units_of_msr nanos units.1
  "\x1b[32m\x1b[1m" ++ self.name ++ " finished\x1b[0m in \x1b[35m\x1b[1m" ++
    toString times.1 ++ " " ++ units.1 ++ " \x1b[0m(" ++ toString times.2 ++
    " " ++ units.2 ++ ")"

/-- Handles reachable from `start` by checkpoint, log and log_overall
operations, under a monotonic clock: at creation the second read is at
least the first, and every later read is at least the last stored one. -/
inductive Reachable : TimeElapsed → Prop where
  | new (name : String) (now1 now2 : Nat) (mono : now1 ≤ now2) :
      Reachable (TimeElapsed.new name now1 now2).1
  | timestamp (st : TimeElapsed) (now : Nat) (hst : Reachable st)
      (mono : st.last_timestamp ≤ now) :
      Reachable (st.timestamp now).1
  | log (st : TimeElapsed) (msg : String) (now : Nat) (hst : Reachable st) :
      Reachable (st.log msg now).1
  | log_overall (st : TimeElapsed) (msg : String) (now : Nat) (hst : Reachable st) :
      Reachable (st.log_overall msg now).1

/-- C5: every handle reachable from start by checkpoint, log and
log_overall operations satisfies `start_timestamp ≤ last_timestamp`: it
holds at creation (monotonic clock) and checkpoints only move forward. -/
theorem c5_invariant_start_le_last (st : TimeElapsed) (h : Reachable st) :
    st.start_timestamp ≤ st.last_timestamp := by
  induction h with
  | new name now1 now2 mono => exact mono
  | timestamp st now hst mono ih =>
      exact le_trans ih mono
  | log st msg now hst ih => exact ih
  | log_overall st msg now hst ih => exact ih

/-- Witness for C5 at a concrete reachable handle. -/
theorem c5_invariant_start_le_last_witness :
    (TimeElapsed.new "test" 0 1).1.start_timestamp ≤
      (TimeElapsed.new "test" 0 1).1.last_timestamp :=
  c5_invariant_start_le_last (TimeElapsed.new "test" 0 1).1
    (Reachable.new "test" 0 1 (by decide))

/-- C6 counterexample: the source's `new` performs two separate
`Instant::now()` calls; under a monotonic clock whose two reads are 0 and
then 1 the constructed handle has `last_timestamp ≠ start_timestamp`, so
"immediately after construction last_checkpoint_instant equals
start_instant" is false. -/
theorem c6_counterexample :
    (0 : Nat) ≤ 1 ∧
    (TimeElapsed.new "test" 0 1).1.last_timestamp ≠
      (TimeElapsed.new "test" 0 1).1.start_timestamp := by
  exact ⟨by decide, by decide⟩

/-- C6 (amended): `start` captures the current monotonic time twice in
succession, storing the first read as `start_timestamp` and the second as
`last_timestamp`; under a monotonic clock `last_timestamp` is greater
than or equal to `start_timestamp` (equality is not guaranteed), and the
emitted line is `running {name}...`. -/
theorem c6_start_two_reads (name : String) (now1 now2 : Nat) (h : now1 ≤ now2) :
    (TimeElapsed.new name now1 now2).1.name = name ∧
    (TimeElapsed.new name now1 now2).1.start_timestamp = now1 ∧
    (TimeElapsed.new name now1 now2).1.last_timestamp = now2 ∧
    (TimeElapsed.new name now1 now2).1.start_timestamp ≤
      (TimeElapsed.new name now1 now2).1.last_timestamp ∧
    (TimeElapsed.new name now1 now2).2 = "running " ++ name ++ "..." :=
  ⟨rfl, rfl, rfl, h, rfl⟩

/-- Witness for C6 (amended) at name "test" with clock reads 0 and 1. -/
theorem c6_start_two_reads_witness :
    (0 : Nat) ≤ 1 ∧
    ((TimeElapsed.new "test" 0 1).1.name = "test" ∧
     (TimeElapsed.new "test" 0 1).1.start_timestamp = 0 ∧
     (TimeElapsed.new "test" 0 1).1.last_timestamp = 1 ∧
     (TimeElapsed.new "test" 0 1).1.start_timestamp ≤
       (TimeElapsed.new "test" 0 1).1.last_timestamp ∧
     (TimeElapsed.new "test" 0 1).2 = "running " ++ "test" ++ "...") :=
  ⟨by decide, c6_start_two_reads "test" 0 1 (by decide)⟩

/-- C7: `log` computes its delta as `now - last_timestamp` and hands it
to `print_message`; the handle is returned unchanged (name, start and
checkpoint are all preserved), so a second consecutive `log` call
measures from the same fixed reference. -/
theorem c7_log_frame (st : TimeElapsed) (msg msg2 : String) (now now2 : Nat) :
    (st.log msg now).1 = st ∧
    st.log msg now = st.print_message msg (now - st.last_timestamp) ∧
    (st.log msg now).1.log msg2 now2 = st.log msg2 now2 :=
  ⟨rfl, rfl, rfl⟩

/-- C8: for a handle satisfying `start_timestamp ≤ last_timestamp`, at
any single instant the delta used by `log_overall` (`now -
start_timestamp`) is at least the delta used by `log` (`now -
last_timestamp`). -/
theorem c8_overall_delta_ge (st : TimeElapsed) (now : Nat)
    (h : st.start_timestamp ≤ st.last_timestamp) :
    now - st.last_timestamp ≤ now - st.start_timestamp :=
  Nat.sub_le_sub_left h now

/-- Witness for C8 at the handle with start 0, checkpoint 5, now 7. -/
theorem c8_overall_delta_ge_witness :
    (TimeElapsed.mk "test" 0 5).start_timestamp ≤
      (TimeElapsed.mk "test" 0 5).last_timestamp ∧
    7 - (TimeElapsed.mk "test" 0 5).last_timestamp ≤
      7 - (TimeElapsed.mk "test" 0 5).start_timestamp :=
  ⟨by decide, c8_overall_delta_ge (TimeElapsed.mk "test" 0 5) 7 (by decide)⟩

/-- Lifecycle state of a handle: `active` holds the live handle, `ended`
is the terminal state after the consuming `end`. -/
inductive Lifecycle where
  | active : TimeElapsed → Lifecycle
  | ended : Lifecycle
deriving Repr, DecidableEq

/-- The operations available on a live handle, each carrying the clock
read(s) it performs. -/
inductive TimerOp where
  | checkpoint : Nat → TimerOp
  | logMsg : String → Nat → TimerOp
  | logOverallMsg : String → Nat → TimerOp
  | finish : Nat → TimerOp
deriving Repr, DecidableEq

/-- Step function of the handle lifecycle, modelling Rust ownership:
`checkpoint`, `log` and `log_overall` borrow the handle and leave it
active; `end` (here `finish`) takes it by value, moving to `ended`; no
operation applies in the `ended` state. -/
def Lifecycle.step : Lifecycle → TimerOp → Option Lifecycle
  | Lifecycle.active st, TimerOp.checkpoint now =>
      some (Lifecycle.active (st.timestamp now).1)
  | Lifecycle.active st, TimerOp.logMsg msg now =>
      some (Lifecycle.active (st.log msg now).1)
  | Lifecycle.active st, TimerOp.logOverallMsg msg now =>
      some (Lifecycle.active (st.log_overall msg now).1)
  | Lifecycle.active _, TimerOp.finish _ => some Lifecycle.ended
  | Lifecycle.ended, _ => none

/-- The `start` entry point, producing an active lifecycle state. -/
def Lifecycle.start (name : String) (now1 now2 : Nat) : Lifecycle :=
  Lifecycle.active (TimeElapsed.new name now1 now2).1

/-- C9: the lifecycle is a two-state machine: `start` produces Active;
checkpoint, log and log_overall are self-loops on Active; `end` moves
Active to the terminal Ended state; and no transition leaves Ended. -/
theorem c9_lifecycle_machine :
    (∀ (name : String) (now1 now2 : Nat),
      ∃ st, Lifecycle.start name now1 now2 = Lifecycle.active st) ∧
    (∀ (st : TimeElapsed) (now : Nat),
      Lifecycle.step (Lifecycle.active st) (TimerOp.checkpoint now) =
        some (Lifecycle.active (st.timestamp now).1)) ∧
    (∀ (st : TimeElapsed) (msg : String) (now : Nat),
      Lifecycle.step (Lifecycle.active st) (TimerOp.logMsg msg now) =
        some (Lifecycle.active (st.log msg now).1)) ∧
    (∀ (st : TimeElapsed) (msg : String) (now : Nat),
      Lifecycle.step (Lifecycle.active st) (TimerOp.logOverallMsg msg now) =
        some (Lifecycle.active (st.log_overall msg now).1)) ∧
    (∀ (st : TimeElapsed) (now : Nat),
      Lifecycle.step (Lifecycle.active st) (TimerOp.finish now) =
        some Lifecycle.ended) ∧
    (∀ op : TimerOp, Lifecycle.step Lifecycle.ended op = none) := by
  refine ⟨fun name now1 now2 => ⟨(TimeElapsed.new name now1 now2).1, rfl⟩,
    fun st now => rfl, fun st msg now => rfl, fun st msg now => rfl,
    fun st now => rfl, fun op => ?_⟩
  cases op <;> rfl
